import Mathlib

/-!
Shallow embedding of the request/response normalization and
error-classification layer of the two Bedrock demo scripts
(`bedrock_example.py` for the Anthropic-family model,
`mistral_example.py` for the Mistral-family model).

Parsed JSON bodies are modelled by the `Json` inductive below; Python dict
operations that the scripts apply to them (`.get`, `in`, `len`, indexing)
are modelled as `Except String`-valued functions whose error strings stand
for `str(e)` of the raised Python exception (the exact CPython wording is
kept where it matters, e.g. "list index out of range"; other messages are
approximated — none of them contains a guardrail-related substring, which
is all the classifier looks at).  The dictionaries the scripts return are
modelled literally as ordered association lists `List (String × Json)`.
-/

namespace BedrockDemo

/-- A parsed JSON value, as produced by `json.loads`.  Objects are ordered
association lists; `json.loads` collapses duplicate keys, so lookups take
the first match of a key (keys are unique in every value the code builds). -/
inductive Json where
  | null
  | bool (b : Bool)
  | num (n : Int)
  | str (s : String)
  | arr (elems : List Json)
  | obj (fields : List (String × Json))

/-- First-match lookup of a key in an object field list. -/
def lookupField : List (String × Json) → String → Option Json
  | [], _ => none
  | (k, v) :: rest, key => if k == key then some v else lookupField rest key

/-- Whether a character list begins with another (needle first). -/
def starts : List Char → List Char → Bool
  | [], _ => true
  | _ :: _, [] => false
  | a :: as, b :: bs => a == b && starts as bs

/-- Whether a character list occurs inside another (needle first). -/
def hasSub (needle : List Char) : List Char → Bool
  | [] => starts needle []
  | c :: t => starts needle (c :: t) || hasSub needle t

/-- Python `needle in hay` for strings: substring containment. -/
def strContainsSub (hay needle : String) : Bool :=
  hasSub needle.data hay.data

/-- ASCII lower-casing of one character, as Python `str.lower` does on the
ASCII range (the error messages the scripts inspect are ASCII). -/
def pyLowerChar (c : Char) : Char :=
  if 'A' ≤ c ∧ c ≤ 'Z' then Char.ofNat (c.toNat + 32) else c

/-- Python `s.lower()` restricted to the ASCII range. -/
def pyLower (s : String) : String :=
  String.mk (s.data.map pyLowerChar)

/-- Truthiness of an optional Python string: `None` and `""` are falsy. -/
def pyTruthyOpt : Option String → Bool
  | none => false
  | some s => !(s == "")

/-- Python `value.get(key, default)`: dict lookup with a default; calling
`.get` on a non-dict raises AttributeError (message approximated, it
contains no guardrail-related substring). -/
def pyDictGet (v : Json) (key : String) (dflt : Json) : Except String Json :=
  match v with
  | Json.obj fields => Except.ok ((lookupField fields key).getD dflt)
  | _ => Except.error "object has no attribute get"

/-- Python `value[0]`: list/str indexing; an empty list raises IndexError
with message "list index out of range" (exact CPython wording). -/
def pyIndex0 (v : Json) : Except String Json :=
  match v with
  | Json.arr [] => Except.error "list index out of range"
  | Json.arr (x :: _) => Except.ok x
  | Json.str s =>
      match s.data with
      | [] => Except.error "string index out of range"
      | ch :: _ => Except.ok (Json.str (String.mk [ch]))
  | Json.obj _ => Except.error "0"
  | _ => Except.error "object is not subscriptable"

/-- Python `key in value`: key membership for dicts, element membership for
lists, substring for strings; TypeError otherwise. -/
def pyIn (key : String) (v : Json) : Except String Bool :=
  match v with
  | Json.obj fields => Except.ok (fields.any (fun p => p.fst == key))
  | Json.arr xs =>
      Except.ok (xs.any (fun x =>
        match x with
        | Json.str s => s == key
        | _ => false))
  | Json.str s => Except.ok (strContainsSub s key)
  | _ => Except.error "argument is not iterable"

/-- Python `value[key]` for a string key: dict subscription (KeyError's
`str` is the key itself); TypeError on other shapes. -/
def pySubscrStr (v : Json) (key : String) : Except String Json :=
  match v with
  | Json.obj fields =>
      match lookupField fields key with
      | some x => Except.ok x
      | none => Except.error key
  | Json.arr _ => Except.error "list indices must be integers or slices, not str"
  | Json.str _ => Except.error "string indices must be integers"
  | _ => Except.error "object is not subscriptable"

/-- Python `len(value)`; TypeError on values without a length. -/
def pyLen (v : Json) : Except String Nat :=
  match v with
  | Json.arr xs => Except.ok xs.length
  | Json.str s => Except.ok s.length
  | Json.obj fields => Except.ok fields.length
  | _ => Except.error "object has no len"

/-- Python `==` between a JSON value and a string literal: true only for an
equal string. -/
def jsonEqStr (v : Json) (s : String) : Bool :=
  match v with
  | Json.str t => t == s
  | _ => false

/-- Configuration of `BedrockGuardrailClient` after `__init__`
(`bedrock_example.py`): `guardrail_id` and `inference_profile_id` may be
`None`, `guardrail_version` is always a string (the constructor defaults it
to "1" via the environment). -/
structure BedrockClient where
  region : String
  guardrail_id : Option String
  guardrail_version : String
  inference_profile_id : Option String
  model_id : String

/-- Configuration of `MistralBedrockClient` after `__init__`
(`mistral_example.py`): both guardrail fields default to `None`. -/
structure MistralClient where
  region : String
  guardrail_id : Option String
  guardrail_version : Option String
  model_id : String

/-- The API-call parameter map built by `BedrockGuardrailClient.invoke_model`
(lines 84-94): base keys always, guardrail keys only when `self.guardrail_id`
is truthy; `guardrailVersion` is then added unconditionally.  `bodyStr`
stands for `json.dumps(request_body)`. -/
def bedrockApiParams (c : BedrockClient) (bodyStr : String) : List (String × String) :=
  let base :=
    [("modelId", if pyTruthyOpt c.inference_profile_id
                 then c.inference_profile_id.getD "" else c.model_id),
     ("body", bodyStr),
     ("contentType", "application/json"),
     ("accept", "application/json")]
  if pyTruthyOpt c.guardrail_id then
    base ++ [("guardrailIdentifier", c.guardrail_id.getD ""),
             ("guardrailVersion", c.guardrail_version)]
  else base

/-- The API-call parameter map built by `MistralBedrockClient.invoke_model`
(lines 140-151): when `self.guardrail_id` is truthy the identifier is added,
and the version is added only when `self.guardrail_version` is also truthy. -/
def mistralApiParams (c : MistralClient) (bodyStr : String) : List (String × String) :=
  let base :=
    [("modelId", c.model_id),
     ("body", bodyStr),
     ("contentType", "application/json"),
     ("accept", "application/json")]
  if pyTruthyOpt c.guardrail_id then
    let withId := base ++ [("guardrailIdentifier", c.guardrail_id.getD "")]
    if pyTruthyOpt c.guardrail_version then
      withId ++ [("guardrailVersion", c.guardrail_version.getD "")]
    else withId
  else base

/-- Whether a parameter map carries a given key. -/
def containsKey (params : List (String × String)) (key : String) : Bool :=
  params.any (fun p => p.fst == key)

/-- The guard of the Anthropic-path error classifier (`bedrock_example.py`
line 118): `"GuardrailIntervened" in msg or "guardrail" in msg.lower()`. -/
def bedrockGuardrailCond (m : String) : Bool :=
  strContainsSub m "GuardrailIntervened" || strContainsSub (pyLower m) "guardrail"

/-- The guard of the Mistral-path error classifier (`mistral_example.py`
line 179): `"GuardrailIntervened" in msg or "ValidationException" in msg`
(both case-sensitive; there is no case-insensitive "guardrail" test). -/
def mistralGuardrailCond (m : String) : Bool :=
  strContainsSub m "GuardrailIntervened" || strContainsSub m "ValidationException"

/-- The dict returned by the `except` block of
`BedrockGuardrailClient.invoke_model` (lines 115-130).  Note the `else`
branch carries no "details" key. -/
def bedrockClassify (errorMessage : String) : List (String × Json) :=
  if bedrockGuardrailCond errorMessage then
    [("success", Json.bool false),
     ("error", Json.str "Guardrail intervention"),
     ("message", Json.str "The request was blocked by guardrails. Please rephrase your question."),
     ("details", Json.str errorMessage)]
  else
    [("success", Json.bool false),
     ("error", Json.str "API error"),
     ("message", Json.str errorMessage)]

/-- The dict returned by the `except` block of
`MistralBedrockClient.invoke_model` (lines 176-192); both branches carry a
"details" key holding the raw message. -/
def mistralClassify (errorMessage : String) : List (String × Json) :=
  if mistralGuardrailCond errorMessage then
    [("success", Json.bool false),
     ("error", Json.str "Guardrail intervention or validation failed"),
     ("message", Json.str "The request was blocked by guardrails or validation failed."),
     ("details", Json.str errorMessage)]
  else
    [("success", Json.bool false),
     ("error", Json.str "API error"),
     ("message", Json.str ("AWS CLI command failed: " ++ errorMessage)),
     ("details", Json.str errorMessage)]

/-- Anthropic-path text extraction (`bedrock_example.py` line 104):
`response_body.get("content", [{}])[0].get("text", "")`. -/
def bedrockExtractText (body : Json) : Except String Json :=
  match pyDictGet body "content" (Json.arr [Json.obj []]) with
  | Except.error e => Except.error e
  | Except.ok content =>
    match pyIndex0 content with
    | Except.error e => Except.error e
    | Except.ok first => pyDictGet first "text" (Json.str "")

/-- The success dict built inside the `try` block of
`BedrockGuardrailClient.invoke_model` (lines 100-113); any exception in the
extraction or the `.get` calls surfaces as an `Except.error` carrying the
exception message. -/
def bedrockTryBody (c : BedrockClient) (body : Json) : Except String (List (String × Json)) :=
  match bedrockExtractText body with
  | Except.error e => Except.error e
  | Except.ok text =>
    match pyDictGet body "stop_reason" Json.null with
    | Except.error e => Except.error e
    | Except.ok stopReason =>
      match pyDictGet body "usage" Json.null with
      | Except.error e => Except.error e
      | Except.ok usage =>
        match pyDictGet body "model" Json.null with
        | Except.error e => Except.error e
        | Except.ok model =>
          Except.ok
            [("success", Json.bool true),
             ("response", text),
             ("stop_reason", stopReason),
             ("usage", usage),
             ("model_id", model),
             ("guardrail_applied", Json.bool c.guardrail_id.isSome)]

/-- `BedrockGuardrailClient.invoke_model` from the remote call on: `remote`
is the outcome of `self.bedrock_runtime.invoke_model(**api_params)` together
with reading and JSON-parsing its body (`Except.error e` stands for a raised
exception with `str(e) = e`); every fault, remote or from response
processing, is routed through the classifier by the `except` block. -/
def bedrockInvokeModel (c : BedrockClient) (remote : Except String Json) : List (String × Json) :=
  match remote with
  | Except.error e => bedrockClassify e
  | Except.ok body =>
    match bedrockTryBody c body with
    | Except.ok result => result
    | Except.error e => bedrockClassify e

/-- The `elif "completion" in response_body:` arm and the default of the
Mistral-path extraction (`mistral_example.py` lines 161, 164-165). -/
def mistralElifCompletion (body : Json) : Except String Json :=
  match pyIn "completion" body with
  | Except.error e => Except.error e
  | Except.ok hasCompletion =>
    if hasCompletion then pyDictGet body "completion" (Json.str "")
    else Except.ok (Json.str "")

/-- Mistral-path text extraction (`mistral_example.py` lines 160-165):
`if "outputs" in body and len(body["outputs"]) > 0: body["outputs"][0].get("text", "")`,
else the completion arm.  Short-circuit `and`: a present-but-empty
"outputs" list falls through to the `elif`. -/
def mistralExtractText (body : Json) : Except String Json :=
  match pyIn "outputs" body with
  | Except.error e => Except.error e
  | Except.ok hasOutputs =>
    if hasOutputs then
      match pySubscrStr body "outputs" with
      | Except.error e => Except.error e
      | Except.ok outs =>
        match pyLen outs with
        | Except.error e => Except.error e
        | Except.ok n =>
          if n > 0 then
            match pyIndex0 outs with
            | Except.error e => Except.error e
            | Except.ok first => pyDictGet first "text" (Json.str "")
          else mistralElifCompletion body
    else mistralElifCompletion body

/-- The success dict built inside the `try` block of
`MistralBedrockClient.invoke_model` (lines 157-174). -/
def mistralTryBody (c : MistralClient) (body : Json) : Except String (List (String × Json)) :=
  match mistralExtractText body with
  | Except.error e => Except.error e
  | Except.ok text =>
    match pyDictGet body "stop_reason" Json.null with
    | Except.error e => Except.error e
    | Except.ok stopReason =>
      Except.ok
        [("success", Json.bool true),
         ("response", text),
         ("stop_reason", stopReason),
         ("model_id", Json.str c.model_id),
         ("guardrail_applied", Json.bool c.guardrail_id.isSome),
         ("raw_response", body)]

/-- The `max_tokens` argument as a Python value: either an `int` or some
non-int value (float, string, ...); the validation only asks
`isinstance(max_tokens, int)` and the sign.  (Python's `bool` being an `int`
subclass is ignored: the parameter is annotated `int`.) -/
inductive PyNum where
  | intVal (n : Int)
  | other

/-- The guard of `MistralBedrockClient.invoke_model` lines 125-129, as the
condition under which the remote call is reached:
`isinstance(max_tokens, int) and max_tokens > 0`. -/
def mistralValidMaxTokens : PyNum → Bool
  | PyNum.intVal n => decide (0 < n)
  | PyNum.other => false

/-- `MistralBedrockClient.invoke_model` from the validation check on.  The
second component records whether `self.bedrock_runtime.invoke_model` was
called; `remote` is that call's outcome as in `bedrockInvokeModel`. -/
def mistralInvokeModel (c : MistralClient) (maxTokens : PyNum) (remote : Except String Json) :
    List (String × Json) × Bool :=
  if mistralValidMaxTokens maxTokens then
    match remote with
    | Except.error e => (mistralClassify e, true)
    | Except.ok body =>
      match mistralTryBody c body with
      | Except.ok result => (result, true)
      | Except.error e => (mistralClassify e, true)
  else
    ([("success", Json.bool false),
      ("error", Json.str "max_tokens must be a positive integer")], false)

/-- The marker string yielded by the `except` block of
`invoke_model_streaming` (`bedrock_example.py` lines 191-196). -/
def bedrockStreamError (errorMessage : String) : String :=
  if bedrockGuardrailCond errorMessage then
    "\n[ERROR: Request blocked by guardrails. Please rephrase your question.]\n"
  else
    "\n[ERROR: " ++ errorMessage ++ "]\n"

/-- Processing of one streaming event (`bedrock_example.py` lines 184-189):
`some t` when the chunk is a content-block delta carrying a text delta
(`t` is `delta.get("text", "")`), `none` when the chunk is filtered out,
`Except.error` when handling the chunk raises. -/
def streamStep (chunk : Json) : Except String (Option Json) :=
  match pyDictGet chunk "type" Json.null with
  | Except.error e => Except.error e
  | Except.ok ty =>
    if jsonEqStr ty "content_block_delta" then
      match pyDictGet chunk "delta" (Json.obj []) with
      | Except.error e => Except.error e
      | Except.ok delta =>
        match pyDictGet delta "type" Json.null with
        | Except.error e => Except.error e
        | Except.ok dty =>
          if jsonEqStr dty "text_delta" then
            match pyDictGet delta "text" (Json.str "") with
            | Except.error e => Except.error e
            | Except.ok t => Except.ok (some t)
          else Except.ok none
    else Except.ok none

/-- The sequence `invoke_model_streaming` yields (lines 178-196): the event
stream delivers `events` in order and then either finishes normally
(`terminal = none`) or raises with message `e` (`terminal = some e`); an
exception while handling an event, or the terminal exception, is caught by
the single `except` and yields exactly one marker string, ending the
generator. -/
def streamRelay (events : List Json) (terminal : Option String) : List Json :=
  match events with
  | [] =>
    match terminal with
    | none => []
    | some e => [Json.str (bedrockStreamError e)]
  | ev :: rest =>
    match streamStep ev with
    | Except.ok (some t) => t :: streamRelay rest terminal
    | Except.ok none => streamRelay rest terminal
    | Except.error e => [Json.str (bedrockStreamError e)]

/-- The text fragments of the content-delta events of a stream, in order
(the per-event selection of `streamStep`, with no relay control flow). -/
def streamFragments (events : List Json) : List Json :=
  match events with
  | [] => []
  | ev :: rest =>
    match streamStep ev with
    | Except.ok (some t) => t :: streamFragments rest
    | _ => streamFragments rest

/-- Whether an `Except` computation finished without raising. -/
def exceptOk {α : Type} (x : Except String α) : Bool :=
  match x with
  | Except.ok _ => true
  | Except.error _ => false

/-- A well-formed content-delta streaming event carrying one text fragment. -/
def textDeltaEvent (t : String) : Json :=
  Json.obj [("type", Json.str "content_block_delta"),
            ("delta", Json.obj [("type", Json.str "text_delta"),
                                ("text", Json.str t)])]

/-- The error taxonomy of the spec (section 7). -/
inductive ErrorKind where
  | guardrailIntervention
  | apiError

/-- Reading the classification back off a returned failure dict, through the
"error" value each branch writes. -/
def resultKind (result : List (String × Json)) : Option ErrorKind :=
  match lookupField result "error" with
  | some (Json.str "Guardrail intervention") => some ErrorKind.guardrailIntervention
  | some (Json.str "Guardrail intervention or validation failed") =>
      some ErrorKind.guardrailIntervention
  | some (Json.str "API error") => some ErrorKind.apiError
  | _ => none

/-- The classification rule exactly as the claim states it, for either path
(`mistralPath = true` adds the ValidationException disjunct): contains
"GuardrailIntervened" (case-sensitive) or "guardrail" (case-insensitive)
— on the Mistral path also "ValidationException" — else ApiError. -/
def specClassifyClaim (mistralPath : Bool) (m : String) : ErrorKind :=
  if strContainsSub m "GuardrailIntervened" || strContainsSub (pyLower m) "guardrail"
      || (mistralPath && strContainsSub m "ValidationException") then
    ErrorKind.guardrailIntervention
  else ErrorKind.apiError

/-! ## Helper lemmas -/

/-- Python `key in d` agrees with first-match lookup on an object. -/
theorem any_eq_lookup_isSome (fields : List (String × Json)) (key : String) :
    fields.any (fun p => p.fst == key) = (lookupField fields key).isSome := by
  induction fields with
  | nil => rfl
  | cons p rest ih =>
      obtain ⟨k, v⟩ := p
      cases hp : k == key <;> simp [List.any, lookupField, hp, ih]

/-- The remote call of `MistralBedrockClient.invoke_model` is reached
exactly when the `max_tokens` validation passes. -/
theorem mistralInvokeModel_called (mc : MistralClient) (mt : PyNum)
    (remote : Except String Json) :
    (mistralInvokeModel mc mt remote).2 = mistralValidMaxTokens mt := by
  cases h : mistralValidMaxTokens mt with
  | false => simp [mistralInvokeModel, h]
  | true =>
      cases remote with
      | error e => simp [mistralInvokeModel, h]
      | ok body =>
          cases htb : mistralTryBody mc body <;> simp [mistralInvokeModel, h, htb]

/-- Every dict the Anthropic-path classifier returns has `success = False`. -/
theorem bedrockClassify_success (e : String) :
    lookupField (bedrockClassify e) "success" = some (Json.bool false) := by
  unfold bedrockClassify; split <;> rfl

/-- Every dict the Mistral-path classifier returns has `success = False`. -/
theorem mistralClassify_success (e : String) :
    lookupField (mistralClassify e) "success" = some (Json.bool false) := by
  unfold mistralClassify; split <;> rfl

/-- Every success dict the Anthropic-path `try` block builds has
`success = True`. -/
theorem bedrockTryBody_success (c : BedrockClient) (body : Json)
    (r : List (String × Json)) (h : bedrockTryBody c body = Except.ok r) :
    lookupField r "success" = some (Json.bool true) := by
  unfold bedrockTryBody at h
  split at h
  all_goals try split at h
  all_goals try split at h
  all_goals try split at h
  all_goals cases h
  all_goals rfl

/-- Every success dict the Mistral-path `try` block builds has
`success = True`. -/
theorem mistralTryBody_success (mc : MistralClient) (body : Json)
    (r : List (String × Json)) (h : mistralTryBody mc body = Except.ok r) :
    lookupField r "success" = some (Json.bool true) := by
  unfold mistralTryBody at h
  split at h
  all_goals try split at h
  all_goals cases h
  all_goals rfl

/-! ## Claims -/

/-- C1 counterexample: the message "guardrail" contains the substring
"guardrail" case-insensitively, so the claim's uniform rule classifies it
as GuardrailIntervention; but the Mistral-path classifier, which only tests
"GuardrailIntervened" and "ValidationException", returns the ApiError
dict for it. -/
theorem errorClassifierClaimCounterexample :
    specClassifyClaim true "guardrail" = ErrorKind.guardrailIntervention ∧
    resultKind (mistralClassify "guardrail") = some ErrorKind.apiError :=
  ⟨rfl, rfl⟩

/-- C1 (amended): the Anthropic path classifies exactly by the claim's rule
(GuardrailIntervened case-sensitive, or "guardrail" case-insensitive); the
Mistral path instead classifies as GuardrailIntervention exactly when the
message contains "GuardrailIntervened" or "ValidationException"
(case-sensitive) — it does not test "guardrail" case-insensitively.  Every
other message yields ApiError on both paths. -/
theorem errorClassifierPaths (m : String) :
    resultKind (bedrockClassify m) = some (specClassifyClaim false m) ∧
    resultKind (mistralClassify m) =
      some (if strContainsSub m "GuardrailIntervened"
               || strContainsSub m "ValidationException"
            then ErrorKind.guardrailIntervention else ErrorKind.apiError) := by
  constructor
  · cases h : bedrockGuardrailCond m with
    | true =>
        simp only [bedrockGuardrailCond] at h
        simp [bedrockClassify, bedrockGuardrailCond, specClassifyClaim, h,
              resultKind, lookupField]
    | false =>
        simp only [bedrockGuardrailCond] at h
        simp [bedrockClassify, bedrockGuardrailCond, specClassifyClaim, h,
              resultKind, lookupField]
  · cases h : mistralGuardrailCond m with
    | true =>
        simp only [mistralGuardrailCond] at h
        simp [mistralClassify, mistralGuardrailCond, h, resultKind, lookupField]
    | false =>
        simp only [mistralGuardrailCond] at h
        simp [mistralClassify, mistralGuardrailCond, h, resultKind, lookupField]

/-- C2 counterexample: a Mistral client with a configured guardrail
identifier but no guardrail version (its constructor default) produces a
parameter map that carries `guardrailIdentifier` but not
`guardrailVersion`, though the claim demands both. -/
theorem guardrailVersionCounterexample :
    pyTruthyOpt (some "gr-1") = true ∧
    containsKey (mistralApiParams
        ⟨"eu-west-1", some "gr-1", none, "mistral.mistral-large-3-675b-instruct"⟩
        "bodyjson") "guardrailIdentifier" = true ∧
    containsKey (mistralApiParams
        ⟨"eu-west-1", some "gr-1", none, "mistral.mistral-large-3-675b-instruct"⟩
        "bodyjson") "guardrailVersion" = false :=
  ⟨rfl, rfl, rfl⟩

/-- C2 (amended): on the Anthropic path a truthy guardrail identifier puts
both guardrail keys in the parameter map and a falsy one puts neither; on
the Mistral path the identifier key tracks the identifier's truthiness but
the version key is present only when the version is also truthy. -/
theorem guardrailParamKeys (bc : BedrockClient) (mc : MistralClient) (bodyStr : String) :
    containsKey (bedrockApiParams bc bodyStr) "guardrailIdentifier"
      = pyTruthyOpt bc.guardrail_id ∧
    containsKey (bedrockApiParams bc bodyStr) "guardrailVersion"
      = pyTruthyOpt bc.guardrail_id ∧
    containsKey (mistralApiParams mc bodyStr) "guardrailIdentifier"
      = pyTruthyOpt mc.guardrail_id ∧
    containsKey (mistralApiParams mc bodyStr) "guardrailVersion"
      = (pyTruthyOpt mc.guardrail_id && pyTruthyOpt mc.guardrail_version) := by
  refine ⟨?_, ?_, ?_, ?_⟩ <;>
  · cases h1 : pyTruthyOpt mc.guardrail_id <;>
    cases h2 : pyTruthyOpt mc.guardrail_version <;>
    cases h3 : pyTruthyOpt bc.guardrail_id <;>
    simp [bedrockApiParams, mistralApiParams, containsKey, h1, h2, h3]

/-- C3: the Mistral-path remote call is reached exactly when `max_tokens`
is a positive integer; a non-positive or non-integer `max_tokens` yields
the validation-failure record with `success = False` and the remote call is
never made. -/
theorem maxTokensValidationGate (mc : MistralClient) (mt : PyNum)
    (remote : Except String Json) :
    ((mistralInvokeModel mc mt remote).2 = true ↔
       ∃ n : Int, mt = PyNum.intVal n ∧ 0 < n) ∧
    ((mistralInvokeModel mc mt remote).2 = false →
       (mistralInvokeModel mc mt remote).1 =
         [("success", Json.bool false),
          ("error", Json.str "max_tokens must be a positive integer")] ∧
       lookupField (mistralInvokeModel mc mt remote).1 "success" =
         some (Json.bool false)) := by
  constructor
  · rw [mistralInvokeModel_called]
    cases mt with
    | other => simp [mistralValidMaxTokens]
    | intVal n =>
        simp only [mistralValidMaxTokens, decide_eq_true_eq]
        constructor
        · intro hn; exact ⟨n, rfl, hn⟩
        · rintro ⟨k, hk, hpos⟩; cases hk; exact hpos
  · intro h2
    rw [mistralInvokeModel_called] at h2
    simp [mistralInvokeModel, h2, lookupField]

/-- C4 counterexample: a body carrying both an "outputs" key (an empty
list) and a "completion" key extracts the completion value, not any
`outputs[0].text` value (there is none): the claim's both-keys rule fails. -/
theorem mistralPrecedenceCounterexample :
    pyIn "outputs" (Json.obj [("outputs", Json.arr []), ("completion", Json.str "hi")]) =
      Except.ok true ∧
    pyIn "completion" (Json.obj [("outputs", Json.arr []), ("completion", Json.str "hi")]) =
      Except.ok true ∧
    mistralExtractText (Json.obj [("outputs", Json.arr []), ("completion", Json.str "hi")]) =
      Except.ok (Json.str "hi") :=
  ⟨rfl, rfl, rfl⟩

/-- C4 (amended): when the "outputs" key holds a nonempty list whose first
element is an object, its "text" entry (default "") is extracted regardless
of a "completion" key; when "outputs" is absent or holds an empty list and
"completion" is present, the completion value is extracted; when neither
key is present, the empty string and a `success = True` result. -/
theorem mistralExtractionPrecedence (fields : List (String × Json))
    (f0 : List (String × Json)) (rest : List Json) (v : Json) :
    (lookupField fields "outputs" = some (Json.arr (Json.obj f0 :: rest)) →
       mistralExtractText (Json.obj fields) =
         Except.ok ((lookupField f0 "text").getD (Json.str ""))) ∧
    (lookupField fields "outputs" = none →
       lookupField fields "completion" = some v →
       mistralExtractText (Json.obj fields) = Except.ok v) ∧
    (lookupField fields "outputs" = some (Json.arr []) →
       lookupField fields "completion" = some v →
       mistralExtractText (Json.obj fields) = Except.ok v) ∧
    (lookupField fields "outputs" = none →
       lookupField fields "completion" = none →
       mistralExtractText (Json.obj fields) = Except.ok (Json.str "") ∧
       lookupField (mistralInvokeModel
           ⟨"eu-west-1", none, none, "mistral.mistral-large-3-675b-instruct"⟩
           (PyNum.intVal 100) (Except.ok (Json.obj fields))).1 "success" =
         some (Json.bool true) ∧
       lookupField (mistralInvokeModel
           ⟨"eu-west-1", none, none, "mistral.mistral-large-3-675b-instruct"⟩
           (PyNum.intVal 100) (Except.ok (Json.obj fields))).1 "response" =
         some (Json.str "")) := by
  refine ⟨?_, ?_, ?_, ?_⟩
  · intro h
    simp [mistralExtractText, pyIn, any_eq_lookup_isSome, h, pySubscrStr,
          pyLen, pyIndex0, pyDictGet, Nat.succ_pos]
  · intro h1 h2
    simp [mistralExtractText, pyIn, any_eq_lookup_isSome, h1,
          mistralElifCompletion, h2, pyDictGet]
  · intro h1 h2
    simp [mistralExtractText, pyIn, any_eq_lookup_isSome, h1, pySubscrStr,
          pyLen, mistralElifCompletion, h2, pyDictGet]
  · intro h1 h2
    have hx : mistralExtractText (Json.obj fields) = Except.ok (Json.str "") := by
      simp [mistralExtractText, pyIn, any_eq_lookup_isSome, h1,
            mistralElifCompletion, h2]
    refine ⟨hx, ?_, ?_⟩ <;>
      simp [mistralInvokeModel, mistralValidMaxTokens, mistralTryBody, hx,
            pyDictGet, lookupField]

/-- C5 counterexample: a parsed body whose "content" key holds an empty
list does not normalize to an empty-string success result; the indexing
raises IndexError, which falls into the error branch and yields the
ApiError dict with `success = False`. -/
theorem normalizerTotalityCounterexample :
    bedrockInvokeModel
        ⟨"eu-west-1", none, "1", none, "anthropic.claude-sonnet-4-20250514-v1:0"⟩
        (Except.ok (Json.obj [("content", Json.arr [])])) =
      [("success", Json.bool false),
       ("error", Json.str "API error"),
       ("message", Json.str "list index out of range")] ∧
    lookupField (bedrockInvokeModel
        ⟨"eu-west-1", none, "1", none, "anthropic.claude-sonnet-4-20250514-v1:0"⟩
        (Except.ok (Json.obj [("content", Json.arr [])]))) "success" =
      some (Json.bool false) :=
  ⟨rfl, rfl⟩

/-- C5 (amended): a missing Anthropic "content" key degrades to an
empty-string text in a `success = True` result, and a Mistral body with
neither "outputs" nor "completion" degrades to empty text; but a present,
empty "content" list raises an internal IndexError that is caught at the
call boundary and converted to the ApiError failure dict — normalization
is not total on malformed fields, though no fault escapes `invoke_model`. -/
theorem normalizerDegradation (c : BedrockClient) (fields : List (String × Json)) :
    (lookupField fields "content" = none →
       bedrockExtractText (Json.obj fields) = Except.ok (Json.str "") ∧
       lookupField (bedrockInvokeModel c (Except.ok (Json.obj fields))) "success" =
         some (Json.bool true)) ∧
    (lookupField fields "content" = some (Json.arr []) →
       bedrockInvokeModel c (Except.ok (Json.obj fields)) =
         [("success", Json.bool false),
          ("error", Json.str "API error"),
          ("message", Json.str "list index out of range")]) ∧
    (lookupField fields "outputs" = none →
       lookupField fields "completion" = none →
       mistralExtractText (Json.obj fields) = Except.ok (Json.str "")) := by
  refine ⟨?_, ?_, ?_⟩
  · intro h
    have hx : bedrockExtractText (Json.obj fields) = Except.ok (Json.str "") := by
      simp [bedrockExtractText, pyDictGet, h, pyIndex0, lookupField]
    refine ⟨hx, ?_⟩
    simp [bedrockInvokeModel, bedrockTryBody, hx, pyDictGet, lookupField]
  · intro h
    have hx : bedrockExtractText (Json.obj fields) =
        Except.error "list index out of range" := by
      simp [bedrockExtractText, pyDictGet, h, pyIndex0]
    simp [bedrockInvokeModel, bedrockTryBody, hx]
    rfl
  · intro h1 h2
    simp [mistralExtractText, pyIn, any_eq_lookup_isSome, h1,
          mistralElifCompletion, h2]

/-- C6: when every event of the stream is handled without a fault and the
stream ends normally, the relay produces exactly the text fragments of the
content-delta events in order, with no trailing marker; when iteration
raises mid-stream (after the events), the relay produces the fragments
emitted before the fault followed by exactly one marker string and nothing
after it. -/
theorem streamingRelayBehavior (events : List Json)
    (h : events.all (fun ev => exceptOk (streamStep ev)) = true) :
    streamRelay events none = streamFragments events ∧
    ∀ e, streamRelay events (some e) =
      streamFragments events ++ [Json.str (bedrockStreamError e)] := by
  induction events with
  | nil => exact ⟨rfl, fun e => rfl⟩
  | cons ev rest ih =>
      rw [List.all_cons, Bool.and_eq_true] at h
      obtain ⟨h1, h2⟩ := h
      have ihr := ih h2
      cases hs : streamStep ev with
      | error e => simp [exceptOk, hs] at h1
      | ok o =>
          cases o with
          | none =>
              exact ⟨by simp [streamRelay, streamFragments, hs, ihr.1],
                     fun e => by simp [streamRelay, streamFragments, hs, ihr.2 e]⟩
          | some t =>
              exact ⟨by simp [streamRelay, streamFragments, hs, ihr.1],
                     fun e => by simp [streamRelay, streamFragments, hs, ihr.2 e]⟩

/-- C6 witness: the three-fragment stream of the claim relays exactly, and
an error after one fragment appends exactly one marker. -/
theorem streamingRelayWitness :
    streamRelay [textDeltaEvent "Hel", textDeltaEvent "lo ", textDeltaEvent "world"] none =
      [Json.str "Hel", Json.str "lo ", Json.str "world"] ∧
    streamRelay [textDeltaEvent "Hel"] (some "boom") =
      [Json.str "Hel", Json.str "\n[ERROR: boom]\n"] :=
  ⟨((streamingRelayBehavior
      [textDeltaEvent "Hel", textDeltaEvent "lo ", textDeltaEvent "world"]
      (by rfl)).1).trans rfl,
   ((streamingRelayBehavior [textDeltaEvent "Hel"] (by rfl)).2 "boom").trans rfl⟩

/-- C7: both `invoke_model` embeddings are total functions of the remote
outcome — every result is a dict carrying a boolean "success" — and every
failure, whether raised by the remote call itself or by response
processing inside the `try` block on a successfully returned body, is
converted into a `success = False` record rather than propagated. -/
theorem invokeNeverPropagates (c : BedrockClient) (mc : MistralClient)
    (mt : PyNum) (remote : Except String Json) :
    (∃ b : Bool, lookupField (bedrockInvokeModel c remote) "success" =
       some (Json.bool b)) ∧
    (∀ e, remote = Except.error e →
       lookupField (bedrockInvokeModel c remote) "success" = some (Json.bool false)) ∧
    (∀ body e, remote = Except.ok body → bedrockTryBody c body = Except.error e →
       lookupField (bedrockInvokeModel c remote) "success" = some (Json.bool false)) ∧
    (∃ b : Bool, lookupField (mistralInvokeModel mc mt remote).1 "success" =
       some (Json.bool b)) ∧
    (∀ e, remote = Except.error e →
       lookupField (mistralInvokeModel mc mt remote).1 "success" =
         some (Json.bool false)) ∧
    (∀ body e, remote = Except.ok body → mistralTryBody mc body = Except.error e →
       lookupField (mistralInvokeModel mc mt remote).1 "success" =
         some (Json.bool false)) := by
  refine ⟨?_, ?_, ?_, ?_, ?_, ?_⟩
  · cases remote with
    | error e => exact ⟨false, by simp [bedrockInvokeModel, bedrockClassify_success]⟩
    | ok body =>
        cases htb : bedrockTryBody c body with
        | ok r =>
            exact ⟨true, by simp [bedrockInvokeModel, htb,
                                  bedrockTryBody_success c body r htb]⟩
        | error e =>
            exact ⟨false, by simp [bedrockInvokeModel, htb, bedrockClassify_success]⟩
  · intro e he
    subst he
    simp [bedrockInvokeModel, bedrockClassify_success]
  · intro body e hok htb
    subst hok
    simp [bedrockInvokeModel, htb, bedrockClassify_success]
  · cases hv : mistralValidMaxTokens mt with
    | false =>
        exact ⟨false, by simp [mistralInvokeModel, hv, lookupField]⟩
    | true =>
        cases remote with
        | error e =>
            exact ⟨false, by simp [mistralInvokeModel, hv, mistralClassify_success]⟩
        | ok body =>
            cases htb : mistralTryBody mc body with
            | ok r =>
                exact ⟨true, by simp [mistralInvokeModel, hv, htb,
                                      mistralTryBody_success mc body r htb]⟩
            | error e =>
                exact ⟨false, by simp [mistralInvokeModel, hv, htb,
                                       mistralClassify_success]⟩
  · intro e he
    subst he
    cases hv : mistralValidMaxTokens mt with
    | false => simp [mistralInvokeModel, hv, lookupField]
    | true => simp [mistralInvokeModel, hv, mistralClassify_success]
  · intro body e hok htb
    subst hok
    cases hv : mistralValidMaxTokens mt with
    | false => simp [mistralInvokeModel, hv, lookupField]
    | true => simp [mistralInvokeModel, hv, htb, mistralClassify_success]

/-- C8 counterexample: a generic failure message on the Anthropic path (no
guardrail substring) is classified ApiError and its result dict carries no
"details" key at all — the claim's retained-details rule fails there. -/
theorem bedrockDetailsCounterexample :
    resultKind (bedrockClassify "Throttling: rate exceeded") = some ErrorKind.apiError ∧
    lookupField (bedrockClassify "Throttling: rate exceeded") "details" = none :=
  ⟨rfl, rfl⟩

/-- C8 (amended): both Mistral-path classifier branches retain the raw
message under "details"; on the Anthropic path only the guardrail branch
does — the ApiError branch has no "details" key and carries the raw
message under "message" instead. -/
theorem errorDetailsRetention (m : String) :
    lookupField (mistralClassify m) "details" = some (Json.str m) ∧
    lookupField (bedrockClassify m) "details" =
      (if bedrockGuardrailCond m then some (Json.str m) else none) ∧
    lookupField (bedrockClassify m) "message" =
      (if bedrockGuardrailCond m
       then some (Json.str
         "The request was blocked by guardrails. Please rephrase your question.")
       else some (Json.str m)) := by
  refine ⟨?_, ?_, ?_⟩
  · unfold mistralClassify; split <;> rfl
  · unfold bedrockClassify; split <;> rfl
  · unfold bedrockClassify; split <;> rfl

/-- C9: the response normalizers are deterministic pure functions of the
parsed body (and the client configuration): in this embedding both are
plain functions with no other state, so normalizing equal bodies twice
yields identical result records on both provider paths. -/
theorem normalizerDeterministic (c : BedrockClient) (mc : MistralClient)
    (b1 b2 : Json) (h : b1 = b2) :
    bedrockTryBody c b1 = bedrockTryBody c b2 ∧
    mistralTryBody mc b1 = mistralTryBody mc b2 := by
  subst h; exact ⟨rfl, rfl⟩

/-- C9 witness: a concrete well-formed body normalized twice. -/
theorem normalizerDeterministicWitness :
    bedrockTryBody
        ⟨"eu-west-1", none, "1", none, "anthropic.claude-sonnet-4-20250514-v1:0"⟩
        (Json.obj [("content", Json.arr [Json.obj [("text", Json.str "Paris")]])]) =
      bedrockTryBody
        ⟨"eu-west-1", none, "1", none, "anthropic.claude-sonnet-4-20250514-v1:0"⟩
        (Json.obj [("content", Json.arr [Json.obj [("text", Json.str "Paris")]])]) :=
  (normalizerDeterministic
    ⟨"eu-west-1", none, "1", none, "anthropic.claude-sonnet-4-20250514-v1:0"⟩
    ⟨"eu-west-1", none, none, "mistral.mistral-large-3-675b-instruct"⟩
    (Json.obj [("content", Json.arr [Json.obj [("text", Json.str "Paris")]])])
    (Json.obj [("content", Json.arr [Json.obj [("text", Json.str "Paris")]])])
    rfl).1

/-- C10: the Mistral-path validation-failure record holds only the success
flag and an error string — no "message" and no "details" key — while both
remote-failure records of the same path always carry both keys. -/
theorem validationFailureRecordShape (mc : MistralClient) (mt : PyNum)
    (remote : Except String Json) (e : String) :
    (mistralValidMaxTokens mt = false →
       (mistralInvokeModel mc mt remote).1 =
         [("success", Json.bool false),
          ("error", Json.str "max_tokens must be a positive integer")] ∧
       lookupField (mistralInvokeModel mc mt remote).1 "message" = none ∧
       lookupField (mistralInvokeModel mc mt remote).1 "details" = none) ∧
    (lookupField (mistralClassify e) "message").isSome = true ∧
    (lookupField (mistralClassify e) "details").isSome = true := by
  refine ⟨?_, ?_, ?_⟩
  · intro h
    simp [mistralInvokeModel, h, lookupField]
  · unfold mistralClassify; split <;> rfl
  · unfold mistralClassify; split <;> rfl

end BedrockDemo
